import Mathlib

/-!
Shallow embedding of `compile_watcher.py` (besessen): a filesystem watcher
that dispatches file events to external compilers (TypeScript, LESS, Jinja
CMS), mapping source paths to build-directory output paths.

Python exceptions are modelled by `Option`/`none`: a function returning
`none` models a Python call that raises (e.g. an `IndexError` from a
negative list index out of range). External subprocesses are modelled by an
oracle `run : String → ProcResult` giving each shell command an exit code
and captured output; `subprocess.check_output` raises exactly when the exit
code is non-zero, while `subprocess.call` never raises.
-/

namespace Besessen

/-! String primitives.  Lean core's `String.splitOn`, `endsWith`, etc. are
defined by well-founded recursion on byte positions and do not reduce in the
kernel, so the Python string operations are embedded structurally over
`String.data` instead, with Python's exact semantics (both separators used
by the program, `"."` and `"/"` = `os.sep`, are single characters). -/

/-- Python `s.split(c)` on a character list: split at every occurrence of
`c`, keeping empty pieces; `"".split(c) == [""]`. -/
def splitChar (c : Char) : List Char → List (List Char)
  | [] => [[]]
  | x :: xs =>
    match splitChar c xs with
    | [] => [[]]
    | y :: ys => if x = c then [] :: y :: ys else (x :: y) :: ys

def ofChars (l : List Char) : String := ⟨l⟩

/-- Python `s.split(sep)` for a one-character separator. -/
def pySplit (s : String) (sep : Char) : List String :=
  (splitChar sep s.data).map ofChars

/-- Python `sep.join(l)`. -/
def pyJoin (sep : String) : List String → String
  | [] => ""
  | a :: as => as.foldl (fun acc x => acc ++ sep ++ x) a

/-- Python `s.endswith(p)` (suffix-exact, case-sensitive). -/
def pyEndsWith (s p : String) : Bool := p.data.isSuffixOf s.data

/-- Python `s.startswith(p)`. -/
def pyStartsWith (s p : String) : Bool := p.data.isPrefixOf s.data

/-- Python `s[0:-1]`: all characters but the last. -/
def pyDropLastChar (s : String) : String := ofChars s.data.dropLast

/-- Python truthiness of an optional string (`if self.build_dir:`):
`None` and `""` are falsy. -/
def truthy : Option String → Bool
  | none => false
  | some s => s != ""

/-- `CompileEventHandler.__init__` line 24:
`build_dir[0:-1] if build_dir and build_dir[-1] == "/" else build_dir`
(`build_dir[-1] == "/"` on a truthy string is the suffix test for `"/"`). -/
def stripTrailingSlash : Option String → Option String
  | none => none
  | some b =>
      if b != "" && pyEndsWith b "/" then some (pyDropLastChar b) else some b

/-- Extension normalization from `CompileEventHandler.__init__` lines 25-27:
`x if x.startswith(".") else "." + x`. -/
def normalizeExt (x : String) : String :=
  if pyStartsWith x "." then x else "." ++ x

def normalizeExts (file_exts : List String) : List String :=
  file_exts.map normalizeExt

/-- `CompileEventHandler.__should_observe` lines 51-55: return `True` as soon
as `fname` ends with one of the stored extensions, else `False`. -/
def shouldObserve (extensions : List String) (fname : String) : Bool :=
  extensions.any (fun extension => pyEndsWith fname extension)

/-- `".".join(filename.split(".")[0:-1])` from `_change_extension` lines
103-104: drop everything after the last dot (and the dot). -/
def stripExt (filename : String) : String :=
  pyJoin "." (pySplit filename '.').dropLast

/-- `CompileEventHandler._change_extension` lines 98-109.  Python raises
`IndexError` (modelled as `none`) in two places: `self._compiles_to_ext[0]`
when the output extension is empty, and `sans_extension_parse[-2] = ...`
when the slash-split extension-stripped filename has fewer than two
components. `List.set (parts.length - 2)` is Python `parts[-2] = ...` in the
in-range case. -/
def changeExtension (compilesToExt : String) (buildDir : Option String)
    (filename : String) : Option String :=
  if compilesToExt = "" then none
  else
    let newext := if pyStartsWith compilesToExt "." then compilesToExt
                  else "." ++ compilesToExt
    let sansExtension := stripExt filename
    if truthy buildDir then
      let parts := pySplit sansExtension '/'
      if 2 ≤ parts.length then
        some (pyJoin "/" (parts.set (parts.length - 2) (buildDir.getD ""))
          ++ newext)
      else none
    else
      some (sansExtension ++ newext)

/-- The constructed state of a `CompileEventHandler`: stored (slash-stripped)
build dir, normalized extensions, and the subclass's output extension. -/
structure HandlerConfig where
  buildDir : Option String
  extensions : List String
  compilesToExt : String
deriving DecidableEq

/-- `CompileEventHandler.__init__` lines 22-29 plus the subclass setting
`_compiles_to_ext`. -/
def mkHandler (build_dir : Option String) (file_exts : List String)
    (compiles_to_ext : String) : HandlerConfig :=
  { buildDir := stripTrailingSlash build_dir
    extensions := normalizeExts file_exts
    compilesToExt := compiles_to_ext }

/-- `TSCompiler("jsbuild")` as wired in `__main__` line 191. -/
def tsHandler : HandlerConfig := mkHandler (some "jsbuild") ["ts"] ".js"

/-- `LessCompiler("css")` as wired in `__main__` line 192. -/
def lessHandler : HandlerConfig := mkHandler (some "css") ["less"] ".css"

/-- A watchdog filesystem event as consumed by the handler callbacks. -/
inductive FSEvent where
  | created (srcPath : String) (isDirectory : Bool)
  | modified (srcPath : String) (isDirectory : Bool)
  | deleted (srcPath : String) (isDirectory : Bool)
  | moved (srcPath destPath : String) (isDirectory : Bool)
deriving DecidableEq

/-- An observable side effect of the dispatcher: a `compile(src)` call on the
compiler, or a deletion (`rm`) of an output path. -/
inductive Action where
  | compile (src : String)
  | delete (path : String)
deriving DecidableEq

/-- `CompileEventHandler.__is_filesys_ev` lines 65-66. -/
def isFilesysEv (cfg : HandlerConfig) (isDirectory : Bool)
    (srcPath : String) : Bool :=
  !isDirectory && shouldObserve cfg.extensions srcPath

/-- The dispatcher: `on_created` / `on_modified` / `on_deleted` / `on_moved`
(lines 68-96).  Returns the list of actions performed, or `none` when an
exception escapes the callback (the `IndexError` from `_change_extension`).
The compiler's `compile` is kept opaque here (an `Action`), matching the
test-double framing of the spec. -/
def handle (cfg : HandlerConfig) : FSEvent → Option (List Action)
  | .created p d => if isFilesysEv cfg d p then some [.compile p] else some []
  | .modified p d => if isFilesysEv cfg d p then some [.compile p] else some []
  | .deleted p d =>
      if isFilesysEv cfg d p then
        (changeExtension cfg.compilesToExt cfg.buildDir p).map
          (fun out => [.delete out])
      else some []
  | .moved p q d =>
      if isFilesysEv cfg d p then
        (changeExtension cfg.compilesToExt cfg.buildDir p).map
          (fun out =>
            if shouldObserve cfg.extensions q then [.delete out, .compile q]
            else [.delete out])
      else some []

/-- Feed a sequence of events through the dispatcher.  Returns the actions
performed in order and whether an exception escaped (which kills the
observer's dispatch thread, so no later event is processed). -/
def handleAll (cfg : HandlerConfig) : List FSEvent → List Action × Bool
  | [] => ([], false)
  | ev :: rest =>
      match handle cfg ev with
      | some acts =>
          let r := handleAll cfg rest
          (acts ++ r.1, r.2)
      | none => ([], true)

/-- Exit code and combined captured output of one external process run. -/
structure ProcResult where
  exitCode : Nat
  output : String

/-- The shell command interpolated in `TSCompiler.compile` line 128. -/
def tsCommand (outfile src : String) : String :=
  "./node_modules/typescript/bin/tsc --lib es2015,es2015.iterable,dom --outFile "
    ++ outfile ++ " " ++ src

/-- The shell command interpolated in `LessCompiler.compile` line 149. -/
def lessCommand (src outfile : String) : String :=
  "./node_modules/less/bin/lessc " ++ src ++ " " ++ outfile

/-- The fixed shell command of `JinjaCMSCompiler.compile` line 174; it does
not mention `src` at all. -/
def jinjaCommand : String :=
  "/home/chad/.virtualenvs/neocities-cms/bin/python ../cms.py cms.json"

/-- Observable outcome of one `compile` call: the external command invoked,
whether it succeeded, and the `(title, message)` notification sent. -/
structure CompileEffects where
  cmd : String
  success : Bool
  notif : String × String
deriving DecidableEq

/-- `TSCompiler.compile` lines 124-136, against a process oracle `run`.
`none` models the uncaught `IndexError` from `_change_extension` computing
`outfile` (before the `try` block); a non-zero exit of the spawned process
raises `CalledProcessError`, which the `except` clause converts into a
failure notification, so it always yields `some`. -/
def tsCompile (run : String → ProcResult) (buildDir : Option String)
    (src : String) : Option CompileEffects :=
  match changeExtension ".js" buildDir src with
  | none => none
  | some outfile =>
      let r := run (tsCommand outfile src)
      if r.exitCode = 0 then
        some ⟨tsCommand outfile src, true, (src, "compiled to " ++ outfile)⟩
      else
        some ⟨tsCommand outfile src, false, ("failure: " ++ src, r.output)⟩

/-- `LessCompiler.compile` lines 145-157, same structure as `tsCompile`. -/
def lessCompile (run : String → ProcResult) (buildDir : Option String)
    (src : String) : Option CompileEffects :=
  match changeExtension ".css" buildDir src with
  | none => none
  | some outfile =>
      let r := run (lessCommand src outfile)
      if r.exitCode = 0 then
        some ⟨lessCommand src outfile, true, (src, "compiled to " ++ outfile)⟩
      else
        some ⟨lessCommand src outfile, false, ("failure: " ++ src, r.output)⟩

/-- `JinjaCMSCompiler.compile` lines 171-182: never calls
`_change_extension`, always runs the same fixed command, catches
`CalledProcessError`, so it is total. -/
def jinjaCompile (run : String → ProcResult) (src : String) : CompileEffects :=
  let r := run jinjaCommand
  if r.exitCode = 0 then
    ⟨jinjaCommand, true, (src, "Triggered a cms call.")⟩
  else
    ⟨jinjaCommand, false, ("failure: " ++ src, r.output)⟩

/-- `CompileEventHandler.__delete` lines 61-63: `subprocess.call(["rm",
fname])` returns the exit code without raising, then the deletion is logged.
The returned log line is `some` for every exit code: a failing `rm` (absent
file) raises nothing and interrupts nothing. -/
def deleteCall (rmExit : Nat) (fname : String) : Option String :=
  let _ := rmExit
  some ("deleted " ++ fname)

/-- A directory tree for the initial build walk: name, plain files, and
subdirectories.  A path is represented by its list of `os.sep`-separated
components (path components never contain the separator, so Python's
`dirpath.split(os.sep)` is exactly this list). -/
inductive FSTree where
  | dir (name : String) (files : List String) (subdirs : List FSTree)

def FSTree.name : FSTree → String
  | .dir n _ _ => n

mutual
/-- `os.walk` over one directory: yield `(dirpath, filenames)` for this
directory, then recurse into subdirectories (top-down order). -/
def walkTree (path : List String) : FSTree → List (List String × List String)
  | .dir _ files subdirs => (path, files) :: walkForest path subdirs

def walkForest (path : List String) :
    List FSTree → List (List String × List String)
  | [] => []
  | t :: ts => walkTree (path ++ [t.name]) t ++ walkForest path ts
end

/-- The skip test of `_compile_all` lines 41-44: skip a walked directory
whose split path has more than one component and whose second component is
`node_modules`. -/
def skipDir (dp : List String) : Bool :=
  if 1 < dp.length then dp[1]? == some "node_modules" else false

/-- `CompileEventHandler._compile_all` lines 39-49: walk from `"."`, skip
directories per `skipDir`, and compile every remaining file that passes
`__should_observe`.  Each compiled file is identified by its directory path
components and its name. -/
def compileAll (extensions : List String) (tree : FSTree) :
    List (List String × String) :=
  ((walkTree ["."] tree).map (fun dpf =>
    if skipDir dpf.1 then []
    else (dpf.2.filter (shouldObserve extensions)).map
      (fun f => (dpf.1, f)))).flatten

/-- The event sequence of the end-to-end property: create, modify, delete of
`a.ts`, all non-directory events. -/
def c1Events : List FSEvent :=
  [.created "a.ts" false, .modified "a.ts" false, .deleted "a.ts" false]

/-- A process oracle whose every command exits `1` with output `"boom"`. -/
def constFailRun : String → ProcResult := fun _ => ⟨1, "boom"⟩

/-- A tree exercising the `node_modules` skip rule: `node_modules` at depth 1
(with a matching file and a deeper subdirectory), and `node_modules` at
depth 2 under `a`. -/
def c7Tree : FSTree :=
  .dir "root" ["r.ts", "r.txt"]
    [ .dir "node_modules" ["y.ts"] [ .dir "deep" ["z.ts"] [] ],
      .dir "a" ["a.ts"] [ .dir "node_modules" ["x.ts"] [] ] ]

/-- A watch root itself named `node_modules` (depth 0). -/
def c7RootTree : FSTree := .dir "node_modules" ["w.ts"] []

/-! Theorems. -/

/-- C1 (counterexample): as stated, the claim is false.  Feeding
`[Created("a.ts"), Modified("a.ts"), Deleted("a.ts")]` into the TS
dispatcher produces no deletion call targeting `"jsbuild/a.js"`; instead an
exception escapes the `Deleted` handler (`sans_extension_parse[-2]` raises
`IndexError` because `"a.ts"` has no directory component). -/
theorem end_to_end_sequence_cex :
    (Action.delete "jsbuild/a.js") ∉ (handleAll tsHandler c1Events).1
    ∧ (handleAll tsHandler c1Events).2 = true := by
  decide

/-- C1 (amended): the sequence produces exactly two `compile("a.ts")`
invocations (from `Created` and `Modified`) and no deletion: on the
`Deleted` event, `_change_extension("a.ts")` raises `IndexError` (the
extension-stripped path `"a"` has a single slash component, so the
`[-2]` assignment is out of range), and that exception escapes the
dispatcher. -/
theorem end_to_end_sequence :
    handleAll tsHandler c1Events
      = ([.compile "a.ts", .compile "a.ts"], true) := by
  decide

/-- C2 (counterexample): as stated, the claim is false.  The non-directory
`Moved` event from the matching source `"a.ts"` performs zero deletions
(rather than exactly one): `_change_extension("a.ts")` raises `IndexError`
before `__delete` is reached. -/
theorem moved_event_dispatch_cex :
    handle tsHandler (.moved "a.ts" "b.ts" false) = none := by
  decide

/-- C2 (amended): for every non-directory `Moved` event whose source path
matches the extension set and whose mapped output path is actually computed
(no `IndexError`, i.e. the extension-stripped source has a directory
component), the dispatcher performs exactly one deletion of that mapped
path, plus a `compile(destPath)` exactly when the destination also matches
the extension set. -/
theorem moved_event_dispatch (cfg : HandlerConfig) (src dst out : String)
    (h1 : isFilesysEv cfg false src = true)
    (h2 : changeExtension cfg.compilesToExt cfg.buildDir src = some out) :
    handle cfg (.moved src dst false)
      = some (if shouldObserve cfg.extensions dst
              then [.delete out, .compile dst] else [.delete out]) := by
  simp [handle, h1, h2]

theorem moved_event_dispatch_witness :
    handle tsHandler (.moved "src/a.ts" "q.txt" false)
      = some (if shouldObserve tsHandler.extensions "q.txt"
              then [.delete "jsbuild/a.js", .compile "q.txt"]
              else [.delete "jsbuild/a.js"]) :=
  moved_event_dispatch tsHandler "src/a.ts" "q.txt" "jsbuild/a.js"
    (by decide) (by decide)

/-- C3: whenever a compile call reaches its external process (the output
path was computed) and that process exits non-zero, both the TS and the LESS
compiler convert the `CalledProcessError` into a failure notification
carrying the captured diagnostic output, and return normally (`some`): the
subprocess failure never propagates out of `compile`. -/
theorem compile_failure_contained (run : String → ProcResult)
    (bd : Option String) (src outfile : String) :
    (changeExtension ".js" bd src = some outfile →
      (run (tsCommand outfile src)).exitCode ≠ 0 →
      tsCompile run bd src = some ⟨tsCommand outfile src, false,
        ("failure: " ++ src, (run (tsCommand outfile src)).output)⟩)
  ∧ (changeExtension ".css" bd src = some outfile →
      (run (lessCommand src outfile)).exitCode ≠ 0 →
      lessCompile run bd src = some ⟨lessCommand src outfile, false,
        ("failure: " ++ src, (run (lessCommand src outfile)).output)⟩) := by
  constructor <;> intro h1 h2 <;> simp [tsCompile, lessCompile, h1, h2]

theorem compile_failure_contained_witness :
    tsCompile constFailRun (some "jsbuild") "src/a.ts"
      = some ⟨tsCommand "jsbuild/a.js" "src/a.ts", false,
          ("failure: " ++ "src/a.ts",
            (constFailRun (tsCommand "jsbuild/a.js" "src/a.ts")).output)⟩ :=
  (compile_failure_contained constFailRun (some "jsbuild") "src/a.ts"
    "jsbuild/a.js").1 (by decide) (by decide)

/-- C4: for every extension set `E` (dotted or undotted members) and
filename `f`, the should-observe predicate holds iff some normalized member
of `E` is a suffix of `f` (as character sequences); matching is suffix-exact
and case-sensitive (witnessed by `"a.TS"` not matching `"ts"`). -/
theorem should_observe_iff :
    (∀ (E : List String) (f : String),
      shouldObserve (normalizeExts E) f = true
        ↔ ∃ e ∈ E, (normalizeExt e).data <:+ f.data)
  ∧ shouldObserve (normalizeExts ["ts"]) "a.TS" = false := by
  refine ⟨fun E f => ?_, by decide⟩
  simp [shouldObserve, normalizeExts, pyEndsWith, List.any_eq_true]

/-- C5: the build directory mapper of the TS handler (build dir `"jsbuild"`,
output extension `".js"`) maps `"src/app.ts"` to exactly
`"jsbuild/app.js"`. -/
theorem mapper_example :
    changeExtension tsHandler.compilesToExt tsHandler.buildDir "src/app.ts"
      = some "jsbuild/app.js" := by
  decide

/-- C6 (counterexample): as stated, the claim is false.  With a build
directory configured, a source path at the root with no directory component
does not yield a path: `_change_extension("a.ts")` raises `IndexError`
(`sans_extension_parse[-2]` on the single-element list `["a"]`). -/
theorem mapper_totality_cex :
    changeExtension tsHandler.compilesToExt tsHandler.buildDir "a.ts"
      = none := by
  decide

/-- C6 (amended): with a build directory configured (and a non-empty output
extension), the mapper returns a — possibly mis-mapped — path for every
source path whose extension-stripped form has at least two slash
components (one or more directory levels, however deep); only a path with
no directory component makes it raise `IndexError` instead. -/
theorem mapper_totality (ext : String) (bd : Option String) (src : String)
    (h1 : ext ≠ "") (h2 : truthy bd = true)
    (h3 : 2 ≤ (pySplit (stripExt src) '/').length) :
    (changeExtension ext bd src).isSome = true := by
  simp [changeExtension, h1, h2, h3]

theorem mapper_totality_witness :
    (changeExtension ".js" (some "jsbuild") "a/b/c.ts").isSome = true :=
  mapper_totality ".js" (some "jsbuild") "a/b/c.ts"
    (by decide) (by decide) (by decide)

/-- C7: the initial build never compiles a file in a walked directory whose
second path component is `node_modules` — i.e. inside a depth-1
`node_modules`, including its whole subtree; and on concrete trees:
`node_modules` at depth 2 is not skipped, a watch root itself named
`node_modules` is not skipped, and every non-skipped matching file is
compiled exactly once (each appears once in the output, `r.txt` filtered
out, `y.ts` and `z.ts` under the depth-1 `node_modules` absent). -/
theorem initial_build_skip :
    (∀ (exts : List String) (tree : FSTree) (dp : List String) (f : String),
        (dp, f) ∈ compileAll exts tree → skipDir dp = false)
  ∧ compileAll [".ts"] c7Tree
      = [(["."], "r.ts"), ([".", "a"], "a.ts"),
         ([".", "a", "node_modules"], "x.ts")]
  ∧ compileAll [".ts"] c7RootTree = [(["."], "w.ts")] := by
  refine ⟨?_, by decide, by decide⟩
  intro exts tree dp f hmem
  simp only [compileAll, List.mem_flatten, List.mem_map] at hmem
  obtain ⟨l, ⟨dpf, hdpf, rfl⟩, hin⟩ := hmem
  by_cases hs : skipDir dpf.1 = true
  · rw [if_pos hs] at hin
    exact absurd hin (List.not_mem_nil _)
  · rw [if_neg hs] at hin
    rw [List.mem_map] at hin
    obtain ⟨a, ha, heq⟩ := hin
    have hfst : dpf.1 = dp := congrArg Prod.fst heq
    rw [← hfst]
    exact Bool.eq_false_iff.mpr hs

theorem initial_build_skip_witness : skipDir ["."] = false :=
  initial_build_skip.1 [".ts"] c7Tree ["."] "r.ts" (by decide)

/-- C8: output deletion is best-effort.  `__delete` runs `rm` through
`subprocess.call`, which returns the exit code instead of raising, so for
every exit code (including a failure because the file does not exist) the
deletion completes and logs; and a `Deleted` event on an absent output does
not interrupt the processing of subsequent events (no existence check
appears anywhere: `deleteCall` does not even take the filesystem as an
input). -/
theorem deletion_best_effort :
    (∀ (rmExit : Nat) (fname : String),
        deleteCall rmExit fname = some ("deleted " ++ fname))
  ∧ handleAll tsHandler
      [.deleted "src/a.ts" false, .created "src/b.ts" false]
      = ([.delete "jsbuild/a.js", .compile "src/b.ts"], false) :=
  ⟨fun _ _ => rfl, by decide⟩

/-- C9: the Jinja CMS compiler's `compile` invokes the identical fixed
external command for any two source paths — the command is `jinjaCommand`
regardless of `src` and of the process outcome. -/
theorem jinja_fixed_command (run : String → ProcResult) (s₁ s₂ : String) :
    (jinjaCompile run s₁).cmd = (jinjaCompile run s₂).cmd
  ∧ (jinjaCompile run s₁).cmd = jinjaCommand := by
  have h : ∀ s, (jinjaCompile run s).cmd = jinjaCommand := by
    intro s
    simp only [jinjaCompile]
    split <;> rfl
  exact ⟨(h s₁).trans (h s₂).symm, h s₁⟩

/-- C10 (counterexample): as stated, the claim is false.  For the
build-directory string `"jsbuild//"` (which ends in `"/"`), construction
removes only the final character, storing `"jsbuild/"`; configuring
`"jsbuild/"` instead stores `"jsbuild"`, and the two mappings differ on
`"src/app.ts"` (`"jsbuild//app.js"` vs `"jsbuild/app.js"`). -/
theorem build_dir_slash_strip_cex :
    changeExtension ".js" (stripTrailingSlash (some "jsbuild//")) "src/app.ts"
      ≠ changeExtension ".js" (stripTrailingSlash (some "jsbuild/"))
          "src/app.ts" := by
  decide

/-- C10 (amended): for every build-directory string ending in `"/"` whose
last-character-removed form does not itself end in `"/"` (at most one
trailing slash), construction stores the string with the final character
removed, and every mapped output path equals the one obtained by
configuring the build directory without that trailing slash. -/
theorem build_dir_slash_strip (b ext src : String)
    (h1 : pyEndsWith b "/" = true)
    (h2 : pyEndsWith (pyDropLastChar b) "/" = false) :
    stripTrailingSlash (some b) = some (pyDropLastChar b)
  ∧ changeExtension ext (stripTrailingSlash (some b)) src
      = changeExtension ext (stripTrailingSlash (some (pyDropLastChar b)))
          src := by
  have hb : b ≠ "" := by
    intro h
    subst h
    exact absurd h1 (by decide)
  have hb' : (b != "") = true := bne_iff_ne.mpr hb
  have hstore : stripTrailingSlash (some b) = some (pyDropLastChar b) := by
    simp [stripTrailingSlash, hb', h1]
  have hstore2 : stripTrailingSlash (some (pyDropLastChar b))
      = some (pyDropLastChar b) := by
    simp [stripTrailingSlash, h2]
  exact ⟨hstore, by rw [hstore, hstore2]⟩

theorem build_dir_slash_strip_witness :
    stripTrailingSlash (some "jsbuild/") = some (pyDropLastChar "jsbuild/")
  ∧ changeExtension ".js" (stripTrailingSlash (some "jsbuild/")) "src/app.ts"
      = changeExtension ".js"
          (stripTrailingSlash (some (pyDropLastChar "jsbuild/"))) "src/app.ts" :=
  build_dir_slash_strip "jsbuild/" ".js" "src/app.ts" (by decide) (by decide)

end Besessen
